import Mathlib

/-!
# Verification of the student-records application (single-file Flask app)

A shallow embedding of the authorization-scoped data-access layer of the
application in `index.py`: the relational state (eight SQLite tables), the
session/role guard, login, the grade upsert, the enroll/unenroll operations
and the delete-student cascade, together with theorems settling the spec's
claims about them.

Modelling conventions:
* each SQLite table is a list of row structures, kept in rowid
  (insertion) order; `INSERT` appends, `DELETE ... WHERE p` filters,
  `UPDATE ... WHERE p` maps over the list;
* `AUTOINCREMENT` columns are explicit per-table counters in `DB`;
* the Flask session is the record of the three keys the app stores;
* `query_db(..., one=True)` ("first row or None") is `Option`-valued;
* password hashing is modelled as an injective tagging function, so that
  `check_password_hash (generate_password_hash p) q = true` iff `p = q`,
  which is the contract of the opaque hash capability;
* Python `float(...)` on form input is modelled by `parseFloat`
  (sign, digits, at most one decimal point); an input it rejects raises
  `ValueError` in Python, which (uncaught) yields an HTTP 500, modelled by
  `Response.serverError`;
* `execute_db` commits after every single statement (`db.commit()` per
  call), so a multi-statement cascade is a sequence of individually
  committed steps; `runCommittedSteps` makes the possible failure of each
  step explicit via a failure oracle.
-/

namespace Belajar

/-- Row of the `users` table: id, username, password_hash, role, full_name. -/
structure UserRow where
  id : Nat
  username : String
  password_hash : String
  role : String
  full_name : String
deriving DecidableEq, Repr

/-- Row of the `mahasiswa` (student profile) table: id references users.id. -/
structure MahasiswaRow where
  id : Nat
  nim : String
  alamat : String
  phone : String
deriving DecidableEq, Repr

/-- Row of the `dosen` (instructor profile) table: id references users.id. -/
structure DosenRow where
  id : Nat
  nidn : String
deriving DecidableEq, Repr

/-- Row of the `mata_kuliah` (course) table. -/
structure MataKuliahRow where
  id : Nat
  kode : String
  nama : String
  sks : Int
deriving DecidableEq, Repr

/-- Row of the `kelas` (class section) table; `dosen_id` is nullable. -/
structure KelasRow where
  id : Nat
  nama : String
  mata_kuliah_id : Nat
  dosen_id : Option Nat
deriving DecidableEq, Repr

/-- Row of the `jadwal` (schedule slot) table. -/
structure JadwalRow where
  id : Nat
  kelas_id : Nat
  hari : String
  jam : String
deriving DecidableEq, Repr

/-- Row of the `enroll` (enrollment) table. -/
structure EnrollRow where
  id : Nat
  mahasiswa_id : Nat
  kelas_id : Nat
deriving DecidableEq, Repr

/-- Row of the `nilai` (grade) table; `nilai_angka` is the REAL score,
modelled as a rational. -/
structure NilaiRow where
  id : Nat
  enroll_id : Nat
  nilai_angka : Rat
deriving DecidableEq, Repr

/-- The database state: the eight tables (each in rowid order) plus the
AUTOINCREMENT counter of every table with an AUTOINCREMENT primary key. -/
structure DB where
  users : List UserRow
  mahasiswa : List MahasiswaRow
  dosen : List DosenRow
  mata_kuliah : List MataKuliahRow
  kelas : List KelasRow
  jadwal : List JadwalRow
  enroll : List EnrollRow
  nilai : List NilaiRow
  nextUserId : Nat
  nextMataKuliahId : Nat
  nextKelasId : Nat
  nextJadwalId : Nat
  nextEnrollId : Nat
  nextNilaiId : Nat
deriving DecidableEq, Repr

/-- The Flask session: the three keys the app stores (`user_id`, `role`,
`full_name`); `none` means the key is absent. -/
structure Session where
  user_id : Option Nat
  role : Option String
  full_name : Option String
deriving DecidableEq, Repr

/-- HTTP method of a request. -/
inductive Method where
  | get
  | post
deriving DecidableEq, Repr

/-- Outcome of a route handler: a redirect to an endpoint (with an optional
numeric url argument), a rendered page (named, since markup is out of
scope), or an HTTP 500 from an uncaught exception. -/
inductive Response where
  | redirect (endpoint : String) (arg : Option Nat)
  | page (name : String)
  | serverError
deriving DecidableEq, Repr

/-- Everything a handler produces: the database after the request, the
session after the request, the messages flashed during the request, and
the response. -/
structure RouteResult where
  db : DB
  sess : Session
  flashes : List String
  response : Response
deriving DecidableEq, Repr

/-- Model of `werkzeug.security.generate_password_hash`: an injective
digest function (the spec treats hashing as an opaque capability with
`verify(hash(p), q) = (p = q)`). -/
def generate_password_hash (p : String) : String := "pbkdf2:" ++ p

/-- Model of `werkzeug.security.check_password_hash`. -/
def check_password_hash (digest password : String) : Bool :=
  digest == generate_password_hash password

/-- Numeric value of a list of decimal digit characters. -/
def digitsVal (cs : List Char) : Nat :=
  cs.foldl (fun n c => 10 * n + (c.toNat - 48)) 0

/-- Model of Python `float(s)` on form input, as an `Option Rat`:
an optional sign, then digits with at most one decimal point, at least one
digit overall (exponents and inf/nan are not modelled; no claim depends on
them). `none` corresponds to `float` raising `ValueError`. -/
def parseFloat (s : String) : Option Rat :=
  let cs := s.toList
  let sign : Rat := if cs.head? = some '-' then -1 else 1
  let body := if cs.head? = some '-' ∨ cs.head? = some '+' then cs.tail else cs
  let ip := body.takeWhile Char.isDigit
  let rest := body.dropWhile Char.isDigit
  if rest = [] then
    if ip.isEmpty then none
    else some (sign * (digitsVal ip : Rat))
  else if rest.head? = some '.' then
    if (rest.tail.all Char.isDigit) && !(ip.isEmpty && rest.tail.isEmpty) then
      some (sign * ((digitsVal ip : Rat) +
        (digitsVal rest.tail : Rat) / (10 : Rat) ^ rest.tail.length))
    else none
  else none

/-- The `login_required(role=...)` decorator: no `user_id` key in the
session means redirect to login; a required role different from the
session's role means flash a warning and redirect to the index; otherwise
the wrapped handler runs. -/
def login_required (role : Option String) (f : DB → Session → RouteResult)
    (db : DB) (sess : Session) : RouteResult :=
  match sess.user_id with
  | none => ⟨db, sess, [], .redirect "login" none⟩
  | some _ =>
    match role with
    | some r =>
        if sess.role ≠ some r then
          ⟨db, sess, ["Akses ditolak: hak akses diperlukan: " ++ r],
            .redirect "index" none⟩
        else f db sess
    | none => f db sess

/-- The POST branch of the `/login` route: look the username up, verify the
digest; on success store `user_id`, `role`, `full_name` in the session and
redirect to the index; on any failure flash one generic message and
re-render the login page, leaving the session untouched. -/
def login (username password : String) (db : DB) (sess : Session) :
    RouteResult :=
  match db.users.find? (fun u => u.username == username) with
  | some u =>
      if check_password_hash u.password_hash password then
        ⟨db, ⟨some u.id, some u.role, some u.full_name⟩,
          ["Login berhasil"], .redirect "index" none⟩
      else
        ⟨db, sess, ["Login gagal: username atau password salah"],
          .page "login"⟩
  | none =>
      ⟨db, sess, ["Login gagal: username atau password salah"],
        .page "login"⟩

/-- The database created and seeded by `init_db` on first run: three
accounts (admin, dosen1, mahasiswa1), the linked profiles, one course,
one class section taught by dosen1, one schedule slot, one enrollment of
mahasiswa1, and one grade of 85.0. -/
def seedDB : DB :=
  { users :=
      [⟨1, "admin", generate_password_hash "admin123", "admin",
          "Administrator"⟩,
       ⟨2, "dosen1", generate_password_hash "dosen123", "dosen",
          "Dr. Dosen Satu"⟩,
       ⟨3, "mahasiswa1", generate_password_hash "mahasiswa123", "mahasiswa",
          "Budi Mahasiswa"⟩],
    mahasiswa := [⟨3, "20231001", "Jl. Merdeka 1", "081234567890"⟩],
    dosen := [⟨2, "NIDN12345"⟩],
    mata_kuliah := [⟨1, "JARKOM101", "Jaringan Komputer", 3⟩],
    kelas := [⟨1, "Jarkom - Pagi", 1, some 2⟩],
    jadwal := [⟨1, 1, "Senin", "08:00-10:00"⟩],
    enroll := [⟨1, 3, 1⟩],
    nilai := [⟨1, 1, 85⟩],
    nextUserId := 4,
    nextMataKuliahId := 2,
    nextKelasId := 2,
    nextJadwalId := 2,
    nextEnrollId := 2,
    nextNilaiId := 2 }

/-- `init_db`: if the database file already exists (`some db`) it returns
immediately and the state is unchanged; on first run (`none`) it creates
the schema and seeds it. -/
def init_db : Option DB → Option DB
  | some db => some db
  | none => some seedDB

/-- The join `FROM enroll e JOIN kelas k ON e.kelas_id=k.id WHERE e.id=?`,
in the nested-loop order SQLite produces (outer scan over `enroll` in
rowid order, inner scan over `kelas`). -/
def enrollKelasJoin (db : DB) (enroll_id : Nat) :
    List (EnrollRow × KelasRow) :=
  (db.enroll.filter (fun e => e.id == enroll_id)).flatMap
    (fun e => (db.kelas.filter (fun k => k.id == e.kelas_id)).map
      (fun k => (e, k)))

/-- First row of the join, or none — `query_db(..., one=True)` on line 711. -/
def enrollKelasFirst (db : DB) (enroll_id : Nat) :
    Option (EnrollRow × KelasRow) :=
  (enrollKelasJoin db enroll_id).head?

/-- The grade write of `dosen_set_nilai` (lines 717–721): if a `nilai` row
for the enrollment exists (`SELECT ... one=True`), `UPDATE nilai SET
nilai_angka=? WHERE enroll_id=?` (updating every matching row in place,
ids untouched); otherwise `INSERT` a fresh row. -/
def setGradeUpsert (db : DB) (enroll_id : Nat) (v : Rat) : DB :=
  if (db.nilai.find? (fun n => n.enroll_id == enroll_id)).isSome then
    { db with nilai := db.nilai.map (fun n =>
        if n.enroll_id == enroll_id
          then { n with nilai_angka := v } else n) }
  else
    { db with
        nilai := db.nilai ++ [⟨db.nextNilaiId, enroll_id, v⟩],
        nextNilaiId := db.nextNilaiId + 1 }

/-- Body of the `/dosen/nilai/set/<enroll_id>` handler (inside the
decorator): fetch the enrollment joined to its class section; if there is
no row or the section's `dosen_id` differs from the session's `user_id`,
flash `Akses ditolak` and redirect to the instructor dashboard. Otherwise
on POST parse the grade (`float(...)` — a parse failure is an uncaught
`ValueError`, hence a 500), upsert it, flash success and redirect to the
class view; on GET render the form. Reading a missing `user_id` key would
be a `KeyError` (500) but is unreachable under the decorator. -/
def dosen_set_nilai_body (enroll_id : Nat) (method : Method)
    (form_nilai : String) (db : DB) (sess : Session) : RouteResult :=
  match sess.user_id with
  | none => ⟨db, sess, [], .serverError⟩
  | some uid =>
    match enrollKelasFirst db enroll_id with
    | none => ⟨db, sess, ["Akses ditolak"], .redirect "dosen_dashboard" none⟩
    | some ek =>
      if ek.2.dosen_id ≠ some uid then
        ⟨db, sess, ["Akses ditolak"], .redirect "dosen_dashboard" none⟩
      else
        match method with
        | .post =>
          match parseFloat form_nilai with
          | none => ⟨db, sess, [], .serverError⟩
          | some v =>
              ⟨setGradeUpsert db enroll_id v, sess, ["Nilai tersimpan"],
                .redirect "dosen_view_kelas" (some ek.1.kelas_id)⟩
        | .get => ⟨db, sess, [], .page "dosen_set_nilai_form"⟩

/-- The full `/dosen/nilai/set/<enroll_id>` route: the body wrapped in
`login_required(role='dosen')`. -/
def dosen_set_nilai (enroll_id : Nat) (method : Method)
    (form_nilai : String) (db : DB) (sess : Session) : RouteResult :=
  login_required (some "dosen") (dosen_set_nilai_body enroll_id method form_nilai)
    db sess

/-- The four statements of the delete-student cascade (lines 450–453), in
source order. The `nilai` delete evaluates its `IN (SELECT id FROM enroll
WHERE mahasiswa_id=?)` subselect against the state it runs in, i.e. before
the `enroll` delete. -/
def deleteMahasiswaSteps (mhs_id : Nat) : List (DB → DB) :=
  [fun db => { db with nilai := db.nilai.filter (fun n =>
      !(db.enroll.any (fun e =>
        e.id == n.enroll_id && e.mahasiswa_id == mhs_id))) },
   fun db => { db with enroll := db.enroll.filter (fun e =>
      !(e.mahasiswa_id == mhs_id)) },
   fun db => { db with mahasiswa := db.mahasiswa.filter (fun m =>
      !(m.id == mhs_id)) },
   fun db => { db with users := db.users.filter (fun u =>
      !(u.id == mhs_id)) }]

/-- Runs a list of statements the way `execute_db` does — committing after
each one — under a failure oracle saying which step (by index) raises.
A raising step leaves the state as committed so far and stops; the flag
records whether all steps ran. -/
def runCommittedSteps (fails : Nat → Bool) :
    List (DB → DB) → Nat → DB → DB × Bool
  | [], _, db => (db, true)
  | s :: rest, i, db =>
      if fails i then (db, false)
      else runCommittedSteps fails rest (i + 1) (s db)

/-- The delete-student cascade when no statement fails (the happy path of
`delete_mahasiswa`). -/
def delete_mahasiswa_db (mhs_id : Nat) (db : DB) : DB :=
  (runCommittedSteps (fun _ => false) (deleteMahasiswaSteps mhs_id) 0 db).1

/-- The `/admin/mahasiswa/delete/<mhs_id>` route body (no failures): run
the cascade, flash, redirect to the student list. -/
def delete_mahasiswa (mhs_id : Nat) (db : DB) (sess : Session) :
    RouteResult :=
  ⟨delete_mahasiswa_db mhs_id db, sess, ["Mahasiswa dihapus"],
    .redirect "manage_mahasiswa" none⟩

/-- The two statements of `/admin/kelas/<kelas_id>/unenroll/<enroll_id>`:
delete the `nilai` rows of the enrollment, then the `enroll` row itself;
`kelas_id` only feeds the redirect. -/
def unenroll_db (enroll_id : Nat) (db : DB) : DB :=
  let db1 := { db with nilai := db.nilai.filter (fun n =>
      !(n.enroll_id == enroll_id)) }
  { db1 with enroll := db1.enroll.filter (fun e =>
      !(e.id == enroll_id)) }

/-- The unenroll route body: cascade, flash, redirect to the class view. -/
def unenroll (kelas_id enroll_id : Nat) (db : DB) (sess : Session) :
    RouteResult :=
  ⟨unenroll_db enroll_id db, sess, ["Mahasiswa dikeluarkan dari kelas"],
    .redirect "view_kelas" (some kelas_id)⟩

/-- Body of `/admin/kelas/<kelas_id>/enroll`: an unconditional `INSERT
INTO enroll (mahasiswa_id, kelas_id) VALUES (?,?)` — no existence check —
then flash and redirect back to the class view. -/
def enroll_mahasiswa_body (kelas_id mahasiswa_id : Nat) (db : DB)
    (sess : Session) : RouteResult :=
  ⟨{ db with
      enroll := db.enroll ++ [⟨db.nextEnrollId, mahasiswa_id, kelas_id⟩],
      nextEnrollId := db.nextEnrollId + 1 },
    sess, ["Mahasiswa di-enroll ke kelas"], .redirect "view_kelas" (some kelas_id)⟩

/-- The full enroll route: the body wrapped in `login_required(role='admin')`. -/
def enroll_mahasiswa (kelas_id mahasiswa_id : Nat) (db : DB)
    (sess : Session) : RouteResult :=
  login_required (some "admin") (enroll_mahasiswa_body kelas_id mahasiswa_id)
    db sess

/-- A grade write on enrollment `eid` is authorized for user `uid` when
the enrollment exists and its class section's instructor id is `uid`
(spec: "E's class section's instructor id == I's id"). -/
def authorizedGrade (db : DB) (eid uid : Nat) : Prop :=
  ∃ e ∈ db.enroll, e.id = eid ∧
    ∃ k ∈ db.kelas, k.id = e.kelas_id ∧ k.dosen_id = some uid

instance (db : DB) (eid uid : Nat) : Decidable (authorizedGrade db eid uid) := by
  unfold authorizedGrade
  infer_instance

/-- Setting the grade of `eid` repeatedly: one `setGradeUpsert` per value
in the list, left to right. -/
def applyGradeWrites (db : DB) (eid : Nat) (vs : List Rat) : DB :=
  vs.foldl (fun d v => setGradeUpsert d eid v) db

/-- A handler standing in for an arbitrary wrapped action, used to
exercise the guard at concrete inputs. -/
def sampleAction : DB → Session → RouteResult :=
  fun db sess => ⟨db, sess, [], .page "sample"⟩

/-! ## Helper lemmas -/

/-- When the key column of a table is duplicate-free, filtering on a key
hit by row `a` yields exactly `[a]`. -/
theorem filter_key_single {α β : Type} [DecidableEq β] (f : α → β)
    (l : List α) (hnd : (l.map f).Nodup) (a : α) (ha : a ∈ l) (x : β)
    (hx : f a = x) : l.filter (fun b => f b == x) = [a] := by
  induction l with
  | nil => cases ha
  | cons b t ih =>
    simp only [List.map_cons, List.nodup_cons] at hnd
    rcases List.mem_cons.mp ha with rfl | hat
    · have ht : t.filter (fun c => f c == x) = [] := by
        refine List.filter_eq_nil_iff.mpr ?_
        intro c hc hcx
        apply hnd.1
        rw [hx, ← beq_iff_eq.mp hcx]
        exact List.mem_map_of_mem f hc
      simp [List.filter_cons, hx, ht]
    · have hbx : (f b == x) = false := by
        apply beq_eq_false_iff_ne.mpr
        intro hfb
        apply hnd.1
        rw [hfb, ← hx]
        exact List.mem_map_of_mem f hat
      simp only [List.filter_cons, hbx, Bool.false_eq_true, if_false]
      exact ih hnd.2 hat

/-- Rows with the same key are equal when the key column is
duplicate-free. -/
theorem key_inj {α β : Type} (f : α → β) (l : List α)
    (hnd : (l.map f).Nodup) {a b : α} (ha : a ∈ l) (hb : b ∈ l)
    (hfab : f a = f b) : a = b :=
  List.inj_on_of_nodup_map hnd ha hb hfab

/-- After an upsert, some grade row for the enrollment holds the written
value (whether the update or the insert branch ran). -/
theorem setGradeUpsert_mem (db : DB) (eid : Nat) (v : Rat) :
    ∃ n ∈ (setGradeUpsert db eid v).nilai,
      n.enroll_id = eid ∧ n.nilai_angka = v := by
  unfold setGradeUpsert
  rcases hf : db.nilai.find? (fun n => n.enroll_id == eid) with _ | n0
  · simp only [hf, Option.isSome_none, Bool.false_eq_true, if_false]
    exact ⟨⟨db.nextNilaiId, eid, v⟩, by simp, rfl, rfl⟩
  · have hmem := List.mem_of_find?_eq_some hf
    have hp := List.find?_some hf
    simp only [hf, Option.isSome_some, if_true]
    refine ⟨{ n0 with nilai_angka := v }, ?_, beq_iff_eq.mp hp, rfl⟩
    have heq : { n0 with nilai_angka := v } =
        (fun n => if n.enroll_id == eid then { n with nilai_angka := v }
          else n) n0 := by simp [hp]
    rw [heq]
    exact List.mem_map_of_mem _ hmem

/-- The update branch of the upsert rewrites exactly the rows of the
enrollment: filtering them out of the updated table is the same as
updating the filtered rows. -/
theorem filter_map_update (l : List NilaiRow) (eid : Nat) (v : Rat) :
    (l.map (fun n => if n.enroll_id == eid then { n with nilai_angka := v }
        else n)).filter (fun n => n.enroll_id == eid) =
      (l.filter (fun n => n.enroll_id == eid)).map
        (fun n => { n with nilai_angka := v }) := by
  induction l with
  | nil => rfl
  | cons a t ih =>
    by_cases ha : a.enroll_id = eid
    · simpa [List.filter_cons, ha] using ih
    · simpa [List.filter_cons, ha] using ih

/-- After one upsert on a table holding at most one grade row for the
enrollment, the enrollment's grade rows carry exactly the written value. -/
theorem setGradeUpsert_values (db : DB) (eid : Nat) (v : Rat)
    (h : ((db.nilai.filter (fun n => n.enroll_id == eid)).length ≤ 1)) :
    ((setGradeUpsert db eid v).nilai.filter
        (fun n => n.enroll_id == eid)).map (fun n => n.nilai_angka) = [v] := by
  unfold setGradeUpsert
  rcases hf : db.nilai.find? (fun n => n.enroll_id == eid) with _ | n0
  · have hnil : db.nilai.filter (fun n => n.enroll_id == eid) = [] := by
      refine List.filter_eq_nil_iff.mpr ?_
      intro n hn
      have := List.find?_eq_none.mp hf n hn
      simpa using this
    simp [hf, List.filter_append, hnil, List.filter_cons]
  · have hp := List.find?_some hf
    have hmem : n0 ∈ db.nilai.filter (fun n => n.enroll_id == eid) :=
      List.mem_filter.mpr ⟨List.mem_of_find?_eq_some hf, hp⟩
    have hone : db.nilai.filter (fun n => n.enroll_id == eid) = [n0] := by
      rcases hl : db.nilai.filter (fun n => n.enroll_id == eid) with _ | ⟨b, t⟩
      · rw [hl] at hmem; cases hmem
      · rw [hl] at h hmem
        have ht : t = [] := by
          cases t with
          | nil => rfl
          | cons c u => simp at h
        subst ht
        simp at hmem
        rw [hl, hmem]
    rw [hf]
    show ((db.nilai.map (fun n => if n.enroll_id == eid
        then { n with nilai_angka := v } else n)).filter
        (fun n => n.enroll_id == eid)).map (fun n => n.nilai_angka) = [v]
    rw [filter_map_update, hone]
    simp

/-- Iterated upserts keep at most one row per enrollment and leave the
last written value. -/
theorem applyGradeWrites_values (eid : Nat) (vs : List Rat) :
    ∀ (db : DB) (w : Rat),
      (db.nilai.filter (fun n => n.enroll_id == eid)).length ≤ 1 →
      vs.getLast? = some w →
      ((applyGradeWrites db eid vs).nilai.filter
          (fun n => n.enroll_id == eid)).map (fun n => n.nilai_angka) = [w] := by
  induction vs with
  | nil => intro db w _ hlast; cases hlast
  | cons v rest ih =>
    intro db w hcount hlast
    have hstep := setGradeUpsert_values db eid v hcount
    have hcount' : ((setGradeUpsert db eid v).nilai.filter
        (fun n => n.enroll_id == eid)).length ≤ 1 := by
      have := congrArg List.length hstep
      simp only [List.length_map, List.length_cons, List.length_nil] at this
      omega
    cases rest with
    | nil =>
      simp only [List.getLast?_singleton, Option.some.injEq] at hlast
      subst hlast
      simpa [applyGradeWrites] using hstep
    | cons r rs =>
      have hlast' : (r :: rs).getLast? = some w := by
        rw [List.getLast?_cons_cons] at hlast
        exact hlast
      have := ih (setGradeUpsert db eid v) w hcount' hlast'
      simpa [applyGradeWrites] using this

/-! ## Claim theorems -/

/-- C7: the session/role guard. With no authenticated identity it
redirects to login without running the action; authenticated but with a
role different from the required one it warns and redirects to home
without running the action; and with no required role, or the matching
role, it runs the action for any authenticated session. -/
theorem login_required_guard (role : Option String)
    (f : DB → Session → RouteResult) (db : DB) (sess : Session) :
    (sess.user_id = none →
      login_required role f db sess = ⟨db, sess, [], .redirect "login" none⟩)
    ∧ (∀ uid r, sess.user_id = some uid → role = some r →
        sess.role ≠ some r →
        login_required role f db sess =
          ⟨db, sess, ["Akses ditolak: hak akses diperlukan: " ++ r],
            .redirect "index" none⟩)
    ∧ (∀ uid, sess.user_id = some uid → (role = none ∨ sess.role = role) →
        login_required role f db sess = f db sess) := by
  refine ⟨?_, ?_, ?_⟩
  · intro h
    simp [login_required, h]
  · intro uid r hu hr hne
    simp [login_required, hu, hr, hne]
  · intro uid hu hrole
    rcases hrole with h | h
    · simp [login_required, hu, h]
    · cases role with
      | none => simp [login_required, hu]
      | some r => simp [login_required, hu, h]

/-- Witness for C7: the three guard outcomes at concrete inputs — an
anonymous session is sent to login, a student session is refused an
admin-only action, and the matching instructor session reaches the
action. -/
theorem login_required_guard_witness :
    login_required (some "admin") sampleAction seedDB ⟨none, none, none⟩ =
      ⟨seedDB, ⟨none, none, none⟩, [], .redirect "login" none⟩
    ∧ login_required (some "admin") sampleAction seedDB
        ⟨some 3, some "mahasiswa", none⟩ =
      ⟨seedDB, ⟨some 3, some "mahasiswa", none⟩,
        ["Akses ditolak: hak akses diperlukan: admin"],
        .redirect "index" none⟩
    ∧ login_required (some "dosen") sampleAction seedDB
        ⟨some 2, some "dosen", none⟩ =
      sampleAction seedDB ⟨some 2, some "dosen", none⟩ :=
  ⟨(login_required_guard (some "admin") sampleAction seedDB
      ⟨none, none, none⟩).1 rfl,
   (login_required_guard (some "admin") sampleAction seedDB
      ⟨some 3, some "mahasiswa", none⟩).2.1 3 "admin" rfl rfl (by decide),
   (login_required_guard (some "dosen") sampleAction seedDB
      ⟨some 2, some "dosen", none⟩).2.2 2 rfl (Or.inr rfl)⟩

/-- C6: a login attempt with an existing username but a wrong password
and one with a nonexistent username produce the identical generic failure
message, re-render the login page, and leave both the database and the
session exactly as they were. -/
theorem login_failure_indistinguishable (db : DB) (sess : Session)
    (u1 p1 u2 p2 : String) (urow : UserRow)
    (h1 : db.users.find? (fun u => u.username == u1) = some urow)
    (h2 : check_password_hash urow.password_hash p1 = false)
    (h3 : db.users.find? (fun u => u.username == u2) = none) :
    login u1 p1 db sess =
      ⟨db, sess, ["Login gagal: username atau password salah"], .page "login"⟩
    ∧ login u2 p2 db sess =
      ⟨db, sess, ["Login gagal: username atau password salah"],
        .page "login"⟩ := by
  constructor
  · simp [login, h1, h2]
  · simp [login, h3]

/-- Witness for C6: on the seeded database, a wrong password for `admin`
and a login as the nonexistent `ghost` yield the same failure result. -/
theorem login_failure_indistinguishable_witness :
    login "admin" "wrong" seedDB ⟨none, none, none⟩ =
      ⟨seedDB, ⟨none, none, none⟩,
        ["Login gagal: username atau password salah"], .page "login"⟩
    ∧ login "ghost" "x" seedDB ⟨none, none, none⟩ =
      ⟨seedDB, ⟨none, none, none⟩,
        ["Login gagal: username atau password salah"], .page "login"⟩ :=
  login_failure_indistinguishable seedDB ⟨none, none, none⟩
    "admin" "wrong" "ghost" "x"
    ⟨1, "admin", generate_password_hash "admin123", "admin", "Administrator"⟩
    (by decide) (by decide) (by decide)

/-- C10: the enroll operation inserts unconditionally — run by an admin
session, each request appends a fresh `enroll` row with the next id, so
enrolling the same student in the same class section twice leaves two
distinct rows for that pair (rather than failing or being a no-op). -/
theorem enroll_mahasiswa_unconditional_insert (db : DB) (sess : Session)
    (uid m k : Nat) (hu : sess.user_id = some uid)
    (hr : sess.role = some "admin") :
    (enroll_mahasiswa k m db sess).db.enroll =
      db.enroll ++ [⟨db.nextEnrollId, m, k⟩]
    ∧ (enroll_mahasiswa k m (enroll_mahasiswa k m db sess).db
        (enroll_mahasiswa k m db sess).sess).db.enroll =
      db.enroll ++ [⟨db.nextEnrollId, m, k⟩, ⟨db.nextEnrollId + 1, m, k⟩]
    ∧ (⟨db.nextEnrollId, m, k⟩ : EnrollRow) ≠ ⟨db.nextEnrollId + 1, m, k⟩ := by
  have hguard : ∀ d, enroll_mahasiswa k m d sess =
      enroll_mahasiswa_body k m d sess := by
    intro d
    simp [enroll_mahasiswa, login_required, hu, hr]
  refine ⟨?_, ?_, ?_⟩
  · rw [hguard]
    rfl
  · rw [hguard]
    have hsess : (enroll_mahasiswa_body k m db sess).sess = sess := rfl
    rw [hsess, hguard]
    simp [enroll_mahasiswa_body]
  · intro hcontra
    have := congrArg EnrollRow.id hcontra
    simp at this

/-- Witness for C10: the seeded student 3 is already enrolled in class
section 1; enrolling again (twice) appends enrollment rows 2 and 3 for
the same pair. -/
theorem enroll_mahasiswa_unconditional_insert_witness :
    (enroll_mahasiswa 1 3 seedDB ⟨some 1, some "admin", none⟩).db.enroll =
      seedDB.enroll ++ [⟨2, 3, 1⟩]
    ∧ (enroll_mahasiswa 1 3
        (enroll_mahasiswa 1 3 seedDB ⟨some 1, some "admin", none⟩).db
        (enroll_mahasiswa 1 3 seedDB ⟨some 1, some "admin", none⟩).sess).db.enroll =
      seedDB.enroll ++ [⟨2, 3, 1⟩, ⟨3, 3, 1⟩]
    ∧ (⟨2, 3, 1⟩ : EnrollRow) ≠ ⟨3, 3, 1⟩ :=
  enroll_mahasiswa_unconditional_insert seedDB ⟨some 1, some "admin", none⟩
    1 3 1 rfl rfl

/-- C5: unenrolling deletes exactly the grade rows of the given
enrollment and the enrollment row itself; every other grade and
enrollment survives unchanged (in order), and all other tables are
untouched. -/
theorem unenroll_exact_effect (db : DB) (eid : Nat) :
    (∀ n, n ∈ (unenroll_db eid db).nilai ↔
      n ∈ db.nilai ∧ n.enroll_id ≠ eid)
    ∧ (∀ e, e ∈ (unenroll_db eid db).enroll ↔
      e ∈ db.enroll ∧ e.id ≠ eid)
    ∧ (unenroll_db eid db).users = db.users
    ∧ (unenroll_db eid db).mahasiswa = db.mahasiswa
    ∧ (unenroll_db eid db).dosen = db.dosen
    ∧ (unenroll_db eid db).mata_kuliah = db.mata_kuliah
    ∧ (unenroll_db eid db).kelas = db.kelas
    ∧ (unenroll_db eid db).jadwal = db.jadwal := by
  refine ⟨?_, ?_, rfl, rfl, rfl, rfl, rfl, rfl⟩
  · intro n
    simp [unenroll_db, List.mem_filter]
  · intro e
    simp [unenroll_db, List.mem_filter]

/-- C3: the delete-student cascade removes exactly the grades of the
student's enrollments, the student's enrollments, the student's profile
row and the student's account row, and leaves every other row of those
tables, and the course / class section / schedule / instructor tables,
unchanged. -/
theorem delete_mahasiswa_exact_effect (db : DB) (mid : Nat) :
    (∀ n, n ∈ (delete_mahasiswa_db mid db).nilai ↔
      n ∈ db.nilai ∧
        ¬ ∃ e ∈ db.enroll, e.id = n.enroll_id ∧ e.mahasiswa_id = mid)
    ∧ (∀ e, e ∈ (delete_mahasiswa_db mid db).enroll ↔
      e ∈ db.enroll ∧ e.mahasiswa_id ≠ mid)
    ∧ (∀ m, m ∈ (delete_mahasiswa_db mid db).mahasiswa ↔
      m ∈ db.mahasiswa ∧ m.id ≠ mid)
    ∧ (∀ u, u ∈ (delete_mahasiswa_db mid db).users ↔
      u ∈ db.users ∧ u.id ≠ mid)
    ∧ (delete_mahasiswa_db mid db).kelas = db.kelas
    ∧ (delete_mahasiswa_db mid db).mata_kuliah = db.mata_kuliah
    ∧ (delete_mahasiswa_db mid db).jadwal = db.jadwal
    ∧ (delete_mahasiswa_db mid db).dosen = db.dosen := by
  refine ⟨?_, ?_, ?_, ?_, rfl, rfl, rfl, rfl⟩
  · intro n
    simp [delete_mahasiswa_db, runCommittedSteps, deleteMahasiswaSteps,
      List.mem_filter, List.any_eq_true]
  · intro e
    simp [delete_mahasiswa_db, runCommittedSteps, deleteMahasiswaSteps,
      List.mem_filter]
  · intro m
    simp [delete_mahasiswa_db, runCommittedSteps, deleteMahasiswaSteps,
      List.mem_filter]
  · intro u
    simp [delete_mahasiswa_db, runCommittedSteps, deleteMahasiswaSteps,
      List.mem_filter]

/-- C8 counterexample: the seeded accounts are `admin`, `dosen1` and
`mahasiswa1` — there is no account with username `instructor1` or
`student1`, so the claimed credentials `instructor1/instructor123` and
`student1/student123` do not exist on first run. -/
theorem init_db_credentials_cex :
    init_db none = some seedDB
    ∧ seedDB.users.map (fun u => u.username) = ["admin", "dosen1", "mahasiswa1"]
    ∧ seedDB.users.all
        (fun u => u.username != "instructor1" && u.username != "student1") =
      true := by
  refine ⟨rfl, rfl, by decide⟩

/-- C8 amended: on first run (and only then — an existing database is
returned untouched) seeding creates exactly three accounts with the fixed
credentials admin/admin123, dosen1/dosen123 and mahasiswa1/mahasiswa123
(each stored as a digest that verifies against that password), plus one
course, one class section, one schedule slot, one enrollment and one
grade. -/
theorem init_db_seeding (db : DB) :
    init_db (some db) = some db
    ∧ init_db none = some seedDB
    ∧ seedDB.users.map (fun u => (u.username, u.role)) =
      [("admin", "admin"), ("dosen1", "dosen"), ("mahasiswa1", "mahasiswa")]
    ∧ seedDB.users.map (fun u => u.password_hash) =
      [generate_password_hash "admin123", generate_password_hash "dosen123",
        generate_password_hash "mahasiswa123"]
    ∧ check_password_hash (generate_password_hash "admin123") "admin123" = true
    ∧ check_password_hash (generate_password_hash "dosen123") "dosen123" = true
    ∧ check_password_hash (generate_password_hash "mahasiswa123")
        "mahasiswa123" = true
    ∧ seedDB.users.length = 3
    ∧ seedDB.mata_kuliah.length = 1
    ∧ seedDB.kelas.length = 1
    ∧ seedDB.jadwal.length = 1
    ∧ seedDB.enroll.length = 1
    ∧ seedDB.nilai.length = 1 := by
  exact ⟨rfl, rfl, rfl, rfl, by decide, by decide, by decide,
    rfl, rfl, rfl, rfl, rfl, rfl⟩

/-- C4 counterexample: with the cascade's second statement failing (the
`enroll` delete), deleting the seeded student 3 leaves the grade deleted
but the enrollment, profile and account still present — a partial
cascade persists, because `execute_db` commits after every statement and
nothing is rolled back. -/
theorem delete_cascade_partial_cex :
    (runCommittedSteps (fun i => i == 1) (deleteMahasiswaSteps 3) 0
        seedDB).2 = false
    ∧ (runCommittedSteps (fun i => i == 1) (deleteMahasiswaSteps 3) 0
        seedDB).1.nilai = []
    ∧ (runCommittedSteps (fun i => i == 1) (deleteMahasiswaSteps 3) 0
        seedDB).1.enroll = [⟨1, 3, 1⟩]
    ∧ seedDB.nilai = [⟨1, 1, 85⟩]
    ∧ (runCommittedSteps (fun i => i == 1) (deleteMahasiswaSteps 3) 0
        seedDB).1 ≠ seedDB
    ∧ (runCommittedSteps (fun i => i == 1) (deleteMahasiswaSteps 3) 0
        seedDB).1 ≠ delete_mahasiswa_db 3 seedDB := by
  refine ⟨rfl, rfl, rfl, rfl, by decide, by decide⟩

/-- C4 amended: the delete-student cascade is not one transaction — each
statement is committed individually. If no statement fails all four
deletes are applied; if the first failing statement is step `i`, exactly
the statements before `i` remain applied (the prefix is kept, nothing is
rolled back), so a failure mid-cascade leaves a partial cascade. -/
theorem delete_cascade_stepwise_commits (db : DB) (mid : Nat)
    (fails : Nat → Bool) :
    ((∀ j, j < 4 → fails j = false) →
      runCommittedSteps fails (deleteMahasiswaSteps mid) 0 db =
        (delete_mahasiswa_db mid db, true))
    ∧ (∀ i, i < 4 → (∀ j, j < i → fails j = false) → fails i = true →
      runCommittedSteps fails (deleteMahasiswaSteps mid) 0 db =
        (((deleteMahasiswaSteps mid).take i).foldl (fun d s => s d) db,
          false)) := by
  constructor
  · intro h
    simp [runCommittedSteps, deleteMahasiswaSteps, delete_mahasiswa_db,
      h 0 (by omega), h 1 (by omega), h 2 (by omega), h 3 (by omega)]
  · intro i hi hbefore hfail
    interval_cases i
    · simp [runCommittedSteps, deleteMahasiswaSteps, hfail]
    · simp [runCommittedSteps, deleteMahasiswaSteps, hfail,
        hbefore 0 (by omega)]
    · simp [runCommittedSteps, deleteMahasiswaSteps, hfail,
        hbefore 0 (by omega), hbefore 1 (by omega)]
    · simp [runCommittedSteps, deleteMahasiswaSteps, hfail,
        hbefore 0 (by omega), hbefore 1 (by omega), hbefore 2 (by omega)]

/-- Witness for the amended C4: the concrete failing run of the
counterexample is exactly the one-step prefix of the cascade. -/
theorem delete_cascade_stepwise_commits_witness :
    runCommittedSteps (fun i => i == 2) (deleteMahasiswaSteps 3) 0 seedDB =
      (((deleteMahasiswaSteps 3).take 2).foldl (fun d s => s d) seedDB,
        false) :=
  (delete_cascade_stepwise_commits seedDB 3 (fun i => i == 2)).2 2
    (by omega) (fun j hj => by interval_cases j <;> rfl) rfl

/-- C2: grade writing is an upsert — when a grade row for the enrollment
exists the write updates scores in place, otherwise it inserts one row —
and therefore, starting from a table with at most one grade row for the
enrollment, any nonempty sequence of writes leaves exactly one grade row
for it, holding the last written value. -/
theorem grade_upsert_invariant (db : DB) (eid : Nat) (v : Rat)
    (vs : List Rat) (w : Rat)
    (hcount : (db.nilai.filter (fun n => n.enroll_id == eid)).length ≤ 1)
    (hlast : vs.getLast? = some w) :
    ((db.nilai.find? (fun n => n.enroll_id == eid)).isSome = true →
      (setGradeUpsert db eid v).nilai = db.nilai.map (fun n =>
        if n.enroll_id == eid then { n with nilai_angka := v } else n))
    ∧ (db.nilai.find? (fun n => n.enroll_id == eid) = none →
      (setGradeUpsert db eid v).nilai =
        db.nilai ++ [⟨db.nextNilaiId, eid, v⟩])
    ∧ ((applyGradeWrites db eid vs).nilai.filter
        (fun n => n.enroll_id == eid)).map (fun n => n.nilai_angka) = [w] := by
  refine ⟨?_, ?_, applyGradeWrites_values eid vs db w hcount hlast⟩
  · intro h
    simp [setGradeUpsert, h]
  · intro h
    simp [setGradeUpsert, h]

/-- Witness for C2: on the seeded database (one grade row for
enrollment 1), writing 90 and then 95 leaves exactly the single value
95. -/
theorem grade_upsert_invariant_witness :
    (seedDB.nilai.filter (fun n => n.enroll_id == 1)).length ≤ 1
    ∧ ([(90 : Rat), 95].getLast? = some 95)
    ∧ ((applyGradeWrites seedDB 1 [90, 95]).nilai.filter
        (fun n => n.enroll_id == 1)).map (fun n => n.nilai_angka) = [95] :=
  ⟨by decide, by decide,
    (grade_upsert_invariant seedDB 1 90 [90, 95] 95 (by decide)
      (by decide)).2.2⟩

/-- C9 counterexample: an authorized instructor posting the malformed
grade "abc" gets an unhandled error (HTTP 500: `float` raises an uncaught
`ValueError`) with no flashed message at all — not a user-visible
validation message on the form. No write occurs. -/
theorem dosen_set_nilai_malformed_cex :
    parseFloat "abc" = none
    ∧ (dosen_set_nilai 1 .post "abc" seedDB
        ⟨some 2, some "dosen", some "Dr. Dosen Satu"⟩).response = .serverError
    ∧ (dosen_set_nilai 1 .post "abc" seedDB
        ⟨some 2, some "dosen", some "Dr. Dosen Satu"⟩).flashes = []
    ∧ (dosen_set_nilai 1 .post "abc" seedDB
        ⟨some 2, some "dosen", some "Dr. Dosen Satu"⟩).db = seedDB := by
  refine ⟨rfl, rfl, rfl, rfl⟩

/-- C9 amended: a set-grade POST whose grade field is not a well-formed
number never writes (the database and session are unchanged), but the
handler does not surface a validation message: if the ownership check
passes the request dies with an unhandled error (500) and no message,
and otherwise it is rejected as forbidden before the parse. -/
theorem dosen_set_nilai_malformed_no_write (db : DB) (sess : Session)
    (uid eid : Nat) (nv : String) (hu : sess.user_id = some uid)
    (hr : sess.role = some "dosen") (hp : parseFloat nv = none) :
    (dosen_set_nilai eid .post nv db sess).db = db
    ∧ (dosen_set_nilai eid .post nv db sess).sess = sess
    ∧ ((dosen_set_nilai eid .post nv db sess).response = .serverError
        ∧ (dosen_set_nilai eid .post nv db sess).flashes = []
      ∨ (dosen_set_nilai eid .post nv db sess).response =
          .redirect "dosen_dashboard" none
        ∧ (dosen_set_nilai eid .post nv db sess).flashes =
          ["Akses ditolak"]) := by
  have hroute : dosen_set_nilai eid .post nv db sess =
      dosen_set_nilai_body eid .post nv db sess := by
    simp [dosen_set_nilai, login_required, hu, hr]
  rw [hroute]
  unfold dosen_set_nilai_body
  rw [hu]
  rcases hek : enrollKelasFirst db eid with _ | ek
  · simp
  · by_cases hd : ek.2.dosen_id = some uid
    · simp [hd, hp]
    · simp [hd]

/-- Witness for the amended C9: the counterexample's request, through the
amended theorem. -/
theorem dosen_set_nilai_malformed_no_write_witness :
    (dosen_set_nilai 1 .post "abc" seedDB ⟨some 2, some "dosen", none⟩).db =
      seedDB
    ∧ (dosen_set_nilai 1 .post "abc" seedDB
        ⟨some 2, some "dosen", none⟩).sess = ⟨some 2, some "dosen", none⟩
    ∧ ((dosen_set_nilai 1 .post "abc" seedDB
          ⟨some 2, some "dosen", none⟩).response = .serverError
        ∧ (dosen_set_nilai 1 .post "abc" seedDB
            ⟨some 2, some "dosen", none⟩).flashes = []
      ∨ (dosen_set_nilai 1 .post "abc" seedDB
          ⟨some 2, some "dosen", none⟩).response =
          .redirect "dosen_dashboard" none
        ∧ (dosen_set_nilai 1 .post "abc" seedDB
            ⟨some 2, some "dosen", none⟩).flashes = ["Akses ditolak"]) :=
  dosen_set_nilai_malformed_no_write seedDB ⟨some 2, some "dosen", none⟩
    2 1 "abc" rfl rfl rfl

/-- C1: on a database whose enrollment and class-section keys are
duplicate-free (they are primary keys), an instructor session posting a
well-formed grade for an enrollment id writes the grade if and only if
the enrollment exists and its class section's instructor id equals the
session's user id; in every other case (and for any request method) the
handler leaves the database untouched, flashes the warning and redirects
to the instructor dashboard. -/
theorem dosen_set_nilai_access_control (db : DB) (sess : Session)
    (uid eid : Nat) (nv : String) (v : Rat)
    (hnde : (db.enroll.map (fun e => e.id)).Nodup)
    (hndk : (db.kelas.map (fun k => k.id)).Nodup)
    (hu : sess.user_id = some uid) (hr : sess.role = some "dosen")
    (hv : parseFloat nv = some v) :
    (authorizedGrade db eid uid →
      (dosen_set_nilai eid .post nv db sess).db = setGradeUpsert db eid v
      ∧ (∃ n ∈ (dosen_set_nilai eid .post nv db sess).db.nilai,
          n.enroll_id = eid ∧ n.nilai_angka = v)
      ∧ (dosen_set_nilai eid .post nv db sess).flashes = ["Nilai tersimpan"]
      ∧ (∃ kid, (dosen_set_nilai eid .post nv db sess).response =
          .redirect "dosen_view_kelas" (some kid)))
    ∧ (¬ authorizedGrade db eid uid → ∀ m : Method,
      dosen_set_nilai eid m nv db sess =
        ⟨db, sess, ["Akses ditolak"], .redirect "dosen_dashboard" none⟩) := by
  have hroute : ∀ m, dosen_set_nilai eid m nv db sess =
      dosen_set_nilai_body eid m nv db sess := by
    intro m
    simp [dosen_set_nilai, login_required, hu, hr]
  rcases hfe : db.enroll.find? (fun e => e.id == eid) with _ | e
  · have hnone : enrollKelasFirst db eid = none := by
      have hfil : db.enroll.filter (fun e => e.id == eid) = [] := by
        refine List.filter_eq_nil_iff.mpr ?_
        intro x hx
        have := List.find?_eq_none.mp hfe x hx
        simpa using this
      simp [enrollKelasFirst, enrollKelasJoin, hfil]
    have hnauth : ¬ authorizedGrade db eid uid := by
      rintro ⟨e, he, heid, -⟩
      have := List.find?_eq_none.mp hfe e he
      simp [heid] at this
    refine ⟨fun hauth => absurd hauth hnauth, fun _ m => ?_⟩
    rw [hroute m]
    simp [dosen_set_nilai_body, hu, hnone]
  · have hmeme := List.mem_of_find?_eq_some hfe
    have hpe := List.find?_some hfe
    have heid : e.id = eid := beq_iff_eq.mp hpe
    have hfil : db.enroll.filter (fun x => x.id == eid) = [e] :=
      filter_key_single (fun x => x.id) db.enroll hnde e hmeme eid heid
    rcases hfk : db.kelas.find? (fun x => x.id == e.kelas_id) with _ | k
    · have hkfil : db.kelas.filter (fun x => x.id == e.kelas_id) = [] := by
        refine List.filter_eq_nil_iff.mpr ?_
        intro x hx
        have := List.find?_eq_none.mp hfk x hx
        simpa using this
      have hnone : enrollKelasFirst db eid = none := by
        simp [enrollKelasFirst, enrollKelasJoin, hfil, hkfil]
      have hnauth : ¬ authorizedGrade db eid uid := by
        rintro ⟨e', he', heid', k', hk', hkid', -⟩
        have he'e : e' = e :=
          key_inj (fun x => x.id) db.enroll hnde he' hmeme
            (heid'.trans heid.symm)
        subst he'e
        have := List.find?_eq_none.mp hfk k' hk'
        simp [hkid'] at this
      refine ⟨fun hauth => absurd hauth hnauth, fun _ m => ?_⟩
      rw [hroute m]
      simp [dosen_set_nilai_body, hu, hnone]
    · have hmemk := List.mem_of_find?_eq_some hfk
      have hpk := List.find?_some hfk
      have hkid : k.id = e.kelas_id := beq_iff_eq.mp hpk
      have hkfil : db.kelas.filter (fun x => x.id == e.kelas_id) = [k] :=
        filter_key_single (fun x => x.id) db.kelas hndk k hmemk
          e.kelas_id hkid
      have hfirst : enrollKelasFirst db eid = some (e, k) := by
        simp [enrollKelasFirst, enrollKelasJoin, hfil, hkfil]
      by_cases hd : k.dosen_id = some uid
      · have hauth : authorizedGrade db eid uid :=
          ⟨e, hmeme, heid, k, hmemk, hkid, hd⟩
        refine ⟨fun _ => ?_, fun hn => absurd hauth hn⟩
        rw [hroute .post]
        have hres : dosen_set_nilai_body eid .post nv db sess =
            ⟨setGradeUpsert db eid v, sess, ["Nilai tersimpan"],
              .redirect "dosen_view_kelas" (some e.kelas_id)⟩ := by
          simp [dosen_set_nilai_body, hu, hfirst, hd, hv]
        rw [hres]
        exact ⟨rfl, setGradeUpsert_mem db eid v, rfl, ⟨e.kelas_id, rfl⟩⟩
      · have hnauth : ¬ authorizedGrade db eid uid := by
          rintro ⟨e', he', heid', k', hk', hkid', hd'⟩
          have he'e : e' = e :=
            key_inj (fun x => x.id) db.enroll hnde he' hmeme
              (heid'.trans heid.symm)
          subst he'e
          have hk'k : k' = k :=
            key_inj (fun x => x.id) db.kelas hndk hk' hmemk
              (hkid'.trans hkid.symm)
          subst hk'k
          exact hd hd'
        refine ⟨fun hauth => absurd hauth hnauth, fun _ m => ?_⟩
        rw [hroute m]
        simp [dosen_set_nilai_body, hu, hfirst, hd]

/-- Witness for C1: on the seeded database, instructor 2 owns class
section 1, so posting grade 90 on enrollment 1 succeeds and writes. -/
theorem dosen_set_nilai_access_control_witness :
    authorizedGrade seedDB 1 2
    ∧ ((dosen_set_nilai 1 .post "90" seedDB
          ⟨some 2, some "dosen", none⟩).db = setGradeUpsert seedDB 1 90
      ∧ (∃ n ∈ (dosen_set_nilai 1 .post "90" seedDB
            ⟨some 2, some "dosen", none⟩).db.nilai,
          n.enroll_id = 1 ∧ n.nilai_angka = 90)
      ∧ (dosen_set_nilai 1 .post "90" seedDB
          ⟨some 2, some "dosen", none⟩).flashes = ["Nilai tersimpan"]
      ∧ (∃ kid, (dosen_set_nilai 1 .post "90" seedDB
            ⟨some 2, some "dosen", none⟩).response =
          .redirect "dosen_view_kelas" (some kid))) :=
  ⟨by decide,
    (dosen_set_nilai_access_control seedDB ⟨some 2, some "dosen", none⟩
      2 1 "90" 90 (by decide) (by decide) rfl rfl
      (by with_unfolding_all rfl)).1 (by decide)⟩

end Belajar
